import Mathlib

/-!
# Verification of the cpar colour-string parser

Shallow embedding of `src/cpar.h` (a single-header CSS-like colour parser).
Strings are modelled as `List Char`; a `NULL` C-string argument is modelled
as `Option.none`.  Machine integers are modelled as `Nat`/`Int` with explicit
wrapping where the C code can wrap.  The C library routines the code calls
(`strtol`, `strtof`, `strtok`, `bsearch`, `strcasecmp`, `isspace`, `tolower`)
are embedded with their documented C-locale behaviour; `bsearch` is embedded
as the classic halving search used by glibc and musl.  Floating-point
conversions are embedded over `ℚ`: the decimal text is parsed exactly, and
every truncation the C code performs ((uint8_t) casts of the float results)
is stated below only where the exact-rational value and the IEEE value
truncate identically (this was checked exhaustively for the percentage
rescale over val ∈ [0,255], and holds for the alpha division because
val/255 lies in [0,1) in both arithmetics).
-/

namespace Cpar

/-- `enum cpar_status` from src/cpar.h (the seven status codes, in order).
`synError` embeds `CPAR_STATUS_SYNTAX_ERROR`. -/
inductive Status where
  | ok
  | invalidParameter
  | tooBig
  | invalidNumber
  | numberRange
  | synError
  | noColorName
deriving DecidableEq, Repr

/-- The four 8-bit channel variables `r`, `g`, `b`, `a` of `cpar_color_parse`. -/
structure RGBA where
  r : Nat
  g : Nat
  b : Nat
  a : Nat
deriving DecidableEq, Repr

/-- C-locale `isspace`: space, \t, \n, \v, \f, \r. -/
def isSpaceC (c : Char) : Bool :=
  c = ' ' || c = '\t' || c = '\n' || c.toNat = 11 || c.toNat = 12 || c = '\r'

/-- C-locale `tolower`. -/
def toLowerC (c : Char) : Char :=
  if 'A' ≤ c && c ≤ 'Z' then Char.ofNat (c.toNat + 32) else c

/-- The normalization loop of `cpar_color_parse`: copy the input dropping
whitespace, lower-casing every copied character. -/
def normalize (s : List Char) : List Char :=
  (s.filter (fun c => !isSpaceC c)).map toLowerC

/-- `CPAR_COLOR_MAKE(r,g,b,a)`: pack four bytes, red most significant. -/
def cparColorMake (r g b a : Nat) : Nat :=
  r % 256 * 2 ^ 24 + g % 256 * 2 ^ 16 + b % 256 * 2 ^ 8 + a % 256

/-- Value of a hexadecimal digit, as accepted by `strtol(.., 16)`. -/
def hexDigitVal (c : Char) : Option Nat :=
  if '0' ≤ c && c ≤ '9' then some (c.toNat - 48)
  else if 'a' ≤ c && c ≤ 'f' then some (c.toNat - 97 + 10)
  else if 'A' ≤ c && c ≤ 'F' then some (c.toNat - 65 + 10)
  else none

/-- Maximal run of hexadecimal digits: accumulated value, digit count, rest. -/
def hexRun : List Char → Nat → Nat × Nat × List Char
  | [], acc => (acc, 0, [])
  | c :: t, acc =>
    match hexDigitVal c with
    | some d =>
      let (v, n, rest) := hexRun t (16 * acc + d)
      (v, n + 1, rest)
    | none => (acc, 0, c :: t)

/-- Value of a decimal digit. -/
def decDigitVal (c : Char) : Option Nat :=
  if '0' ≤ c && c ≤ '9' then some (c.toNat - 48) else none

/-- Maximal run of decimal digits: accumulated value, digit count, rest. -/
def decRun : List Char → Nat → Nat × Nat × List Char
  | [], acc => (acc, 0, [])
  | c :: t, acc =>
    match decDigitVal c with
    | some d =>
      let (v, n, rest) := decRun t (10 * acc + d)
      (v, n + 1, rest)
    | none => (acc, 0, c :: t)

/-- Optional single sign character: (negative?, rest). -/
def signSplit : List Char → Bool × List Char
  | '-' :: t => (true, t)
  | '+' :: t => (false, t)
  | s => (false, s)

/-- `strtol(str, &ep, 16)` on an already lower-cased string with no leading
whitespace: optional sign, optional 0x prefix, hexadecimal digits.  Returns
the value and the rest of the string from the final `ep` position; with no
digit the conversion fails and `ep` is the original string.  Overflow cannot
occur for the two-character strings `cpar_hex_byte_to_int` passes in. -/
def strtol16 (s : List Char) : Int × List Char :=
  let (neg, s1) := signSplit s
  match s1 with
  | '0' :: 'x' :: c :: t =>
    if (hexDigitVal c).isSome then
      let (v, _, rest) := hexRun (c :: t) 0
      ((if neg then -(v : Int) else (v : Int)), rest)
    else
      ((0 : Int), 'x' :: c :: t)
  | _ =>
    let (v, n, rest) := hexRun s1 0
    if n = 0 then ((0 : Int), s)
    else ((if neg then -(v : Int) else (v : Int)), rest)

/-- `strtol(str, &ep, 10)` on a string with no leading whitespace: optional
sign then decimal digits.  Returns (value, ERANGE?, rest-at-ep); on overflow
of a 64-bit signed long the value is clamped and the ERANGE flag set, exactly
the information the caller inspects through `errno`. -/
def strtol10 (s : List Char) : Int × Bool × List Char :=
  let (neg, s1) := signSplit s
  let (v, n, rest) := decRun s1 0
  if n = 0 then ((0 : Int), false, s)
  else
    let sv : Int := if neg then -(v : Int) else (v : Int)
    if sv < -(2 ^ 63) then (-(2 ^ 63), true, rest)
    else if 2 ^ 63 - 1 < sv then (2 ^ 63 - 1, true, rest)
    else (sv, false, rest)

/-- src: `cpar_hex_byte_to_int`.  The `errno` check cannot fire (no overflow
on the two-character inputs); the range check precedes the trailing-character
check, as in the C. -/
def cpar_hex_byte_to_int (hex_str : List Char) : Except Status Nat :=
  let vr := strtol16 hex_str
  if vr.1 < 0 ∨ 255 < vr.1 then .error .numberRange
  else if vr.2 ≠ [] then .error .invalidNumber
  else .ok vr.1.toNat

/-- src: `cpar_parse_component_rgb`.  `str` is always a non-empty `strtok`
token; the C reads `str[str_len - 1]`, which for an empty string would be an
out-of-bounds read, modelled as "no percent suffix".  The percent rescale
`(uint8_t)(((float)val / 100.0) * 255.0)` truncates; the truncation of the
double result equals `val * 255 / 100` in `Nat` arithmetic for every
val ∈ [0,255] (checked exhaustively). -/
def cpar_parse_component_rgb (str : List Char) : Except Status Nat :=
  let percent : Bool := str.getLast? = some '%'
  let str1 := if percent then str.dropLast else str
  let ver := strtol10 str1
  if ver.2.1 ∨ ver.2.2 ≠ [] then .error .invalidNumber
  else if ver.1 < 0 ∨ 255 < ver.1 then .error .numberRange
  else .ok (if percent then ver.1.toNat * 255 / 100 else ver.1.toNat)

/-- `strtof(str, &ep)` embedded exactly: optional sign, decimal digits with
optional fraction and optional decimal exponent.  The parsed value is
sign · mant · 10 ^ exp10, kept as the triple (negative?, mant, exp10) so all
later arithmetic is exact integer arithmetic.  Hexadecimal floats,
infinities, NaNs, rounding to binary float, and ERANGE on over/underflow are
not modelled; none of them can turn a rejected alpha token into an accepted
one with a non-zero stored byte.  With no digit at all the conversion fails
and the rest is the whole input (value 0, `ep = str`). -/
def strtofParts (s : List Char) : (Bool × Nat × Int) × List Char :=
  let (neg, s1) := signSplit s
  let (ip, n1, s2) := decRun s1 0
  let (fp, n2, s3) :=
    match s2 with
    | '.' :: t => decRun t 0
    | _ => ((0 : Nat), (0 : Nat), s2)
  if n1 + n2 = 0 then ((false, 0, 0), s)
  else
    let mant := ip * 10 ^ n2 + fp
    let (ex, s4) :=
      match s3 with
      | 'e' :: t =>
        let (eneg, t1) := signSplit t
        let (ev, en, t2) := decRun t1 0
        if en = 0 then ((0 : Int), s3)
        else ((if eneg then -(ev : Int) else (ev : Int)), t2)
      | _ => ((0 : Int), s3)
    ((neg, mant, ex - (n2 : Int)), s4)

/-- Whether mant · 10 ^ ex exceeds 1 (integer form of `val > 1.0f`). -/
def mulPowGtOne (mant : Nat) (ex : Int) : Bool :=
  if 0 ≤ ex then decide (1 < mant * 10 ^ ex.toNat)
  else decide (10 ^ (-ex).toNat < mant)

/-- ⌊(mant · 10 ^ ex) / d⌋ for a nonnegative value: the `(uint8_t)`
truncation of the nonnegative float quotient. -/
def mulPowDivFloor (mant : Nat) (ex : Int) (d : Nat) : Nat :=
  if 0 ≤ ex then mant * 10 ^ ex.toNat / d
  else mant / (d * 10 ^ (-ex).toNat)

/-- src: `cpar_parse_component_a`.  The range test is `val < 0.0f ||
val > 1.0f` (a negative zero, `-0`/`-0.0`, is not below 0.0f and passes);
the store `*out = val / 255.0f` casts the float quotient to `uint8_t`,
truncating toward zero.  For val ∈ [0,1] the quotient lies in [0,1) in
exact and in IEEE arithmetic alike, so the truncation is the integer floor
of val / 255. -/
def cpar_parse_component_a (str : List Char) : Except Status Nat :=
  let pr := strtofParts str
  if pr.2 ≠ [] then .error .invalidNumber
  else if (pr.1.1 ∧ 0 < pr.1.2.1) ∨ mulPowGtOne pr.1.2.1 pr.1.2.2 then
    .error .numberRange
  else .ok (mulPowDivFloor pr.1.2.1 pr.1.2.2 255)

/-- Split on one separator character, keeping empty pieces. -/
def splitAux (sep : Char) : List Char → List Char → List (List Char)
  | [], cur => [cur.reverse]
  | c :: t, cur =>
    if c = sep then cur.reverse :: splitAux sep t []
    else splitAux sep t (c :: cur)

/-- The `strtok(str, ",")` token sequence: the maximal non-empty runs between
commas (`strtok` never yields an empty token). -/
def splitTokens (s : List Char) : List (List Char) :=
  (splitAux ',' s []).filter (fun t => t ≠ [])

/-- One iteration body of the loop in `cpar_parse_comma_components`:
positions 0..2 are RGB components, position 3 is the alpha component. -/
def ccStep (i : Nat) (tok : List Char) (st : RGBA) : Except Status RGBA :=
  match i with
  | 0 => (cpar_parse_component_rgb tok).map (fun v => { st with r := v })
  | 1 => (cpar_parse_component_rgb tok).map (fun v => { st with g := v })
  | 2 => (cpar_parse_component_rgb tok).map (fun v => { st with b := v })
  | 3 => (cpar_parse_component_a tok).map (fun v => { st with a := v })
  | _ => .ok st

/-- The `while (tok && i < n_comp)` loop of `cpar_parse_comma_components`,
followed by the `i != n_comp` arity check.  Tokens beyond `n` are left
unconsumed, exactly as the C loop stops once `i` reaches `n_comp`. -/
def ccGo (n : Nat) : List (List Char) → Nat → RGBA → Except Status RGBA
  | [], i, st => if i ≠ n then .error .synError else .ok st
  | tok :: rest, i, st =>
    if i < n then
      match ccStep i tok st with
      | .error e => .error e
      | .ok st1 => ccGo n rest (i + 1) st1
    else if i ≠ n then .error .synError
    else .ok st

/-- src: `cpar_parse_comma_components` on the in-place tokenized buffer. -/
def cpar_parse_comma_components (s : List Char) (n : Nat) (st : RGBA) :
    Except Status RGBA :=
  ccGo n (splitTokens s) 0 st

/-- src: `cpar_color_name_table`, all 163 entries in declaration order
(including the unsorted head of 16 basic colours and the deliberate
duplicates). -/
def cpar_color_name_table : List (String × Nat) := [
  ("black", cparColorMake 0 0 0 255),
  ("silver", cparColorMake 192 192 192 255),
  ("gray", cparColorMake 128 128 128 255),
  ("white", cparColorMake 255 255 255 255),
  ("maroon", cparColorMake 128 0 0 255),
  ("red", cparColorMake 255 0 0 255),
  ("purple", cparColorMake 128 0 128 255),
  ("fuchsia", cparColorMake 255 0 255 255),
  ("green", cparColorMake 0 128 0 255),
  ("lime", cparColorMake 0 255 0 255),
  ("olive", cparColorMake 128 128 0 255),
  ("yellow", cparColorMake 255 255 0 255),
  ("navy", cparColorMake 0 0 128 255),
  ("blue", cparColorMake 0 0 255 255),
  ("teal", cparColorMake 0 128 128 255),
  ("aqua", cparColorMake 0 255 255 255),
  ("aliceblue", cparColorMake 240 248 255 255),
  ("antiquewhite", cparColorMake 250 235 215 255),
  ("aqua", cparColorMake 0 255 255 255),
  ("aquamarine", cparColorMake 127 255 212 255),
  ("azure", cparColorMake 240 255 255 255),
  ("beige", cparColorMake 245 245 220 255),
  ("bisque", cparColorMake 255 228 196 255),
  ("black", cparColorMake 0 0 0 255),
  ("blanchedalmond", cparColorMake 255 235 205 255),
  ("blue", cparColorMake 0 0 255 255),
  ("blueviolet", cparColorMake 138 43 226 255),
  ("brown", cparColorMake 165 42 42 255),
  ("burlywood", cparColorMake 222 184 135 255),
  ("cadetblue", cparColorMake 95 158 160 255),
  ("chartreuse", cparColorMake 127 255 0 255),
  ("chocolate", cparColorMake 210 105 30 255),
  ("coral", cparColorMake 255 127 80 255),
  ("cornflowerblue", cparColorMake 100 149 237 255),
  ("cornsilk", cparColorMake 255 248 220 255),
  ("crimson", cparColorMake 220 20 60 255),
  ("cyan", cparColorMake 0 255 255 255),
  ("darkblue", cparColorMake 0 0 139 255),
  ("darkcyan", cparColorMake 0 139 139 255),
  ("darkgoldenrod", cparColorMake 184 134 11 255),
  ("darkgray", cparColorMake 169 169 169 255),
  ("darkgreen", cparColorMake 0 100 0 255),
  ("darkgrey", cparColorMake 169 169 169 255),
  ("darkkhaki", cparColorMake 189 183 107 255),
  ("darkmagenta", cparColorMake 139 0 139 255),
  ("darkolivegreen", cparColorMake 85 107 47 255),
  ("darkorange", cparColorMake 255 140 0 255),
  ("darkorchid", cparColorMake 153 50 204 255),
  ("darkred", cparColorMake 139 0 0 255),
  ("darksalmon", cparColorMake 233 150 122 255),
  ("darkseagreen", cparColorMake 143 188 143 255),
  ("darkslateblue", cparColorMake 72 61 139 255),
  ("darkslategray", cparColorMake 47 79 79 255),
  ("darkslategrey", cparColorMake 47 79 79 255),
  ("darkturquoise", cparColorMake 0 206 209 255),
  ("darkviolet", cparColorMake 148 0 211 255),
  ("deeppink", cparColorMake 255 20 147 255),
  ("deepskyblue", cparColorMake 0 191 255 255),
  ("dimgray", cparColorMake 105 105 105 255),
  ("dimgrey", cparColorMake 105 105 105 255),
  ("dodgerblue", cparColorMake 30 144 255 255),
  ("firebrick", cparColorMake 178 34 34 255),
  ("floralwhite", cparColorMake 255 250 240 255),
  ("forestgreen", cparColorMake 34 139 34 255),
  ("fuchsia", cparColorMake 255 0 255 255),
  ("gainsboro", cparColorMake 220 220 220 255),
  ("ghostwhite", cparColorMake 248 248 255 255),
  ("gold", cparColorMake 255 215 0 255),
  ("goldenrod", cparColorMake 218 165 32 255),
  ("gray", cparColorMake 128 128 128 255),
  ("green", cparColorMake 0 128 0 255),
  ("greenyellow", cparColorMake 173 255 47 255),
  ("grey", cparColorMake 128 128 128 255),
  ("honeydew", cparColorMake 240 255 240 255),
  ("hotpink", cparColorMake 255 105 180 255),
  ("indianred", cparColorMake 205 92 92 255),
  ("indigo", cparColorMake 75 0 130 255),
  ("ivory", cparColorMake 255 255 240 255),
  ("khaki", cparColorMake 240 230 140 255),
  ("lavender", cparColorMake 230 230 250 255),
  ("lavenderblush", cparColorMake 255 240 245 255),
  ("lawngreen", cparColorMake 124 252 0 255),
  ("lemonchiffon", cparColorMake 255 250 205 255),
  ("lightblue", cparColorMake 173 216 230 255),
  ("lightcoral", cparColorMake 240 128 128 255),
  ("lightcyan", cparColorMake 224 255 255 255),
  ("lightgoldenrodyellow", cparColorMake 250 250 210 255),
  ("lightgray", cparColorMake 211 211 211 255),
  ("lightgreen", cparColorMake 144 238 144 255),
  ("lightgrey", cparColorMake 211 211 211 255),
  ("lightpink", cparColorMake 255 182 193 255),
  ("lightsalmon", cparColorMake 255 160 122 255),
  ("lightseagreen", cparColorMake 32 178 170 255),
  ("lightskyblue", cparColorMake 135 206 250 255),
  ("lightslategray", cparColorMake 119 136 153 255),
  ("lightslategrey", cparColorMake 119 136 153 255),
  ("lightsteelblue", cparColorMake 176 196 222 255),
  ("lightyellow", cparColorMake 255 255 224 255),
  ("lime", cparColorMake 0 255 0 255),
  ("limegreen", cparColorMake 50 205 50 255),
  ("linen", cparColorMake 250 240 230 255),
  ("magenta", cparColorMake 255 0 255 255),
  ("maroon", cparColorMake 128 0 0 255),
  ("mediumaquamarine", cparColorMake 102 205 170 255),
  ("mediumblue", cparColorMake 0 0 205 255),
  ("mediumorchid", cparColorMake 186 85 211 255),
  ("mediumpurple", cparColorMake 147 112 219 255),
  ("mediumseagreen", cparColorMake 60 179 113 255),
  ("mediumslateblue", cparColorMake 123 104 238 255),
  ("mediumspringgreen", cparColorMake 0 250 154 255),
  ("mediumturquoise", cparColorMake 72 209 204 255),
  ("mediumvioletred", cparColorMake 199 21 133 255),
  ("midnightblue", cparColorMake 25 25 112 255),
  ("mintcream", cparColorMake 245 255 250 255),
  ("mistyrose", cparColorMake 255 228 225 255),
  ("moccasin", cparColorMake 255 228 181 255),
  ("navajowhite", cparColorMake 255 222 173 255),
  ("navy", cparColorMake 0 0 128 255),
  ("oldlace", cparColorMake 253 245 230 255),
  ("olive", cparColorMake 128 128 0 255),
  ("olivedrab", cparColorMake 107 142 35 255),
  ("orange", cparColorMake 255 165 0 255),
  ("orangered", cparColorMake 255 69 0 255),
  ("orchid", cparColorMake 218 112 214 255),
  ("palegoldenrod", cparColorMake 238 232 170 255),
  ("palegreen", cparColorMake 152 251 152 255),
  ("paleturquoise", cparColorMake 175 238 238 255),
  ("palevioletred", cparColorMake 219 112 147 255),
  ("papayawhip", cparColorMake 255 239 213 255),
  ("peachpuff", cparColorMake 255 218 185 255),
  ("peru", cparColorMake 205 133 63 255),
  ("pink", cparColorMake 255 192 203 255),
  ("plum", cparColorMake 221 160 221 255),
  ("powderblue", cparColorMake 176 224 230 255),
  ("purple", cparColorMake 128 0 128 255),
  ("red", cparColorMake 255 0 0 255),
  ("rosybrown", cparColorMake 188 143 143 255),
  ("royalblue", cparColorMake 65 105 225 255),
  ("saddlebrown", cparColorMake 139 69 19 255),
  ("salmon", cparColorMake 250 128 114 255),
  ("sandybrown", cparColorMake 244 164 96 255),
  ("seagreen", cparColorMake 46 139 87 255),
  ("seashell", cparColorMake 255 245 238 255),
  ("sienna", cparColorMake 160 82 45 255),
  ("silver", cparColorMake 192 192 192 255),
  ("skyblue", cparColorMake 135 206 235 255),
  ("slateblue", cparColorMake 106 90 205 255),
  ("slategray", cparColorMake 112 128 144 255),
  ("slategrey", cparColorMake 112 128 144 255),
  ("snow", cparColorMake 255 250 250 255),
  ("springgreen", cparColorMake 0 255 127 255),
  ("steelblue", cparColorMake 70 130 180 255),
  ("tan", cparColorMake 210 180 140 255),
  ("teal", cparColorMake 0 128 128 255),
  ("thistle", cparColorMake 216 191 216 255),
  ("tomato", cparColorMake 255 99 71 255),
  ("turquoise", cparColorMake 64 224 208 255),
  ("violet", cparColorMake 238 130 238 255),
  ("wheat", cparColorMake 245 222 179 255),
  ("white", cparColorMake 255 255 255 255),
  ("whitesmoke", cparColorMake 245 245 245 255),
  ("yellow", cparColorMake 255 255 0 255),
  ("yellowgreen", cparColorMake 154 205 50 255)
]

/-- src: `cpar_strcasecmp`: case-insensitive compare, returning the first
differing `tolower` difference, or the difference at the first end. -/
def cpar_strcasecmp : List Char → List Char → Int
  | [], [] => 0
  | [], c2 :: _ => -((toLowerC c2).toNat : Int)
  | c1 :: _, [] => ((toLowerC c1).toNat : Int)
  | c1 :: t1, c2 :: t2 =>
    let r : Int := ((toLowerC c1).toNat : Int) - ((toLowerC c2).toNat : Int)
    if r ≠ 0 then r else cpar_strcasecmp t1 t2

/-- libc `bsearch`, embedded as the classic halving search (glibc):
`l`,`u` delimit the live half-open range; the comparator is the key applied
against an element.  The `fuel` argument is only a structural-termination
device: each step shrinks `u - l` by at least one, so with initial fuel
`u - l` the fuel never runs out before `l < u` fails. -/
def bsearchGo {α : Type} (cmp : α → Int) (arr : List α) :
    Nat → Nat → Nat → Option α
  | 0, _, _ => none
  | fuel + 1, l, u =>
    if l < u then
      let idx := (l + u) / 2
      match arr[idx]? with
      | none => none
      | some x =>
        if cmp x < 0 then bsearchGo cmp arr fuel l idx
        else if 0 < cmp x then bsearchGo cmp arr fuel (idx + 1) u
        else some x
    else none

/-- `bsearch(key, base, nmemb, size, compar)` over the range `[l, u)`. -/
def bsearchLoop {α : Type} (cmp : α → Int) (arr : List α) (l u : Nat) :
    Option α :=
  bsearchGo cmp arr (u - l) l u

/-- src: `cpar_color_from_name`.  The caller always passes the non-null
normalized buffer, so the `!color_str` precondition check is not modelled. -/
def cpar_color_from_name (color_str : List Char) : Except Status Nat :=
  match bsearchLoop (fun e => cpar_strcasecmp color_str e.1.toList)
      cpar_color_name_table 0 cpar_color_name_table.length with
  | none => .error .noColorName
  | some e => .ok e.2

/-- Truncation of a 64-bit integer to the `int` return type of the
value comparator (two's complement wrap). -/
def toInt32 (x : Int) : Int := (x + 2 ^ 31) % 2 ^ 32 - 2 ^ 31

/-- src: `cpar_lookup_color_name` with its comparator
`(long)p1 - entry->value`: the exact 64-bit difference is wrapped to `int`
by the comparator's return type. -/
def cpar_lookup_color_name (value : Nat) : Option String :=
  (bsearchLoop (fun e => toInt32 ((value : Int) - (e.2 : Int)))
      cpar_color_name_table 0 cpar_color_name_table.length).map (fun e => e.1)

/-- Outcome of `cpar_strerror`: a description string, the NULL sentinel, or
an out-of-bounds read of the static string table (undefined behaviour). -/
inductive StrerrorResult where
  | str (s : String)
  | null
  | outOfBounds
deriving DecidableEq, Repr

/-- The static `error_strings` table of `cpar_strerror` (7 entries). -/
def error_strings : List String :=
  ["success", "invalid parameter", "color string too big",
   "numeric component failed to parse", "numeric component out-of-range",
   "syntax error", "no matching color name"]

/-- src: `cpar_strerror`.  The bound check casts the (int-ranged) status to
`size_t`, so a negative status compares huge and returns NULL; the check is
`> 7` although the last valid index is 6, so index 7 reaches the array
access, past the end. -/
def cpar_strerror (status : Int) : StrerrorResult :=
  let stz : Nat := (status % 2 ^ 64).toNat
  if stz > 7 then .null
  else
    match error_strings[stz]? with
    | some s => .str s
    | none => .outOfBounds

/-- The short-circuit chain of `cpar_hex_byte_to_int` calls in the hex branch
of `cpar_color_parse`, ending in `CPAR_COLOR_MAKE`; the output slot is
written only when all four conversions succeed. -/
def hexAssemble (er eg eb ea : Except Status Nat) (slot : Nat) :
    Status × Nat :=
  match er with
  | .error s => (s, slot)
  | .ok r =>
    match eg with
    | .error s => (s, slot)
    | .ok g =>
      match eb with
      | .error s => (s, slot)
      | .ok b =>
        match ea with
        | .error s => (s, slot)
        | .ok a => (.ok, cparColorMake r g b a)

/-- The `*start == '#'` branch of `cpar_color_parse`: 3-digit form duplicates
each digit, 3- and 6-digit forms force alpha to ff, any other digit count is
a syntax error. -/
def parseHexBranch (hex : List Char) (slot : Nat) : Status × Nat :=
  match hex with
  | [d1, d2, d3] =>
    hexAssemble (cpar_hex_byte_to_int [d1, d1]) (cpar_hex_byte_to_int [d2, d2])
      (cpar_hex_byte_to_int [d3, d3]) (cpar_hex_byte_to_int ['f', 'f']) slot
  | [c1, c2, c3, c4, c5, c6] =>
    hexAssemble (cpar_hex_byte_to_int [c1, c2]) (cpar_hex_byte_to_int [c3, c4])
      (cpar_hex_byte_to_int [c5, c6]) (cpar_hex_byte_to_int ['f', 'f']) slot
  | [c1, c2, c3, c4, c5, c6, c7, c8] =>
    hexAssemble (cpar_hex_byte_to_int [c1, c2]) (cpar_hex_byte_to_int [c3, c4])
      (cpar_hex_byte_to_int [c5, c6]) (cpar_hex_byte_to_int [c7, c8]) slot
  | _ => (.synError, slot)

/-- The shared tail of the `rgb(`/`rgba(` branches: `start` is the buffer
after the prefix.  The C checks `start[--buffer_len] != ')'`; when `start` is
empty that decrements 0 past zero and reads out of bounds (undefined
behaviour) — the stray byte is never the `)` the check wants, modelled as the
syntax error the code then returns. -/
def parseFuncTail (start : List Char) (n : Nat) (slot : Nat) : Status × Nat :=
  if start.getLast? ≠ some ')' then (.synError, slot)
  else
    match cpar_parse_comma_components start.dropLast n ⟨0, 0, 0, 255⟩ with
    | .error e => (e, slot)
    | .ok st => (.ok, cparColorMake st.r st.g st.b st.a)

/-- The syntax dispatch of `cpar_color_parse` on the normalized buffer:
`*start == '#'`, then `strstr(start, "rgb(") == start` (a prefix test), then
the `rgba(` prefix, then the colour-name lookup as a last resort. -/
def parseDispatch (buffer : List Char) (slot : Nat) : Status × Nat :=
  match buffer with
  | '#' :: hex => parseHexBranch hex slot
  | _ =>
    if ("rgb(".toList).isPrefixOf buffer then
      parseFuncTail (buffer.drop 4) 3 slot
    else if ("rgba(".toList).isPrefixOf buffer then
      parseFuncTail (buffer.drop 5) 4 slot
    else
      match cpar_color_from_name buffer with
      | .error e => (e, slot)
      | .ok v => (.ok, v)

/-- src: `cpar_color_parse`.  `color_str = none` models a NULL pointer; the
`slot` argument is the 32-bit cell `result` points at, returned updated (the
claims here concern a non-null `result`).  Branch order as in the source:
null/empty check, raw-length check against the 64-byte buffer, whitespace
strip + lower-case, then the four-way syntax dispatch. -/
def cpar_color_parse (color_str : Option (List Char)) (slot : Nat) :
    Status × Nat :=
  match color_str with
  | none => (.invalidParameter, slot)
  | some cs =>
    if cs = [] then (.invalidParameter, slot)
    else if 64 ≤ cs.length then (.tooBig, slot)
    else parseDispatch (normalize cs) slot

instance : DecidableEq (Except Status Nat) := fun a b =>
  match a, b with
  | .ok x, .ok y =>
    if h : x = y then .isTrue (by rw [h]) else .isFalse (by simp [h])
  | .error x, .error y =>
    if h : x = y then .isTrue (by rw [h]) else .isFalse (by simp [h])
  | .ok _, .error _ => .isFalse (by simp)
  | .error _, .ok _ => .isFalse (by simp)

/-- The 22 hexadecimal digit characters, in both letter cases. -/
def hexChars : List Char := "0123456789abcdefABCDEF".toList

/-- Whether an embedded component result is a success. -/
def exceptIsOk : Except Status Nat → Bool
  | .ok _ => true
  | .error _ => false


set_option maxRecDepth 16000

/-! ## Helper lemmas -/

theorem bsearchGo_some {α : Type} (cmp : α → Int) (arr : List α) :
    ∀ (fuel l u : Nat) (x : α), bsearchGo cmp arr fuel l u = some x →
      x ∈ arr ∧ cmp x = 0 := by
  intro fuel
  induction fuel with
  | zero => intro l u x h; simp [bsearchGo] at h
  | succ n ih =>
    intro l u x h
    rw [bsearchGo] at h
    split at h
    · dsimp only at h
      split at h
      · exact absurd h (by simp)
      · rename_i x0 hidx
        split at h
        · exact ih _ _ _ h
        · split at h
          · exact ih _ _ _ h
          · rename_i h1 h2
            obtain rfl : x0 = x := by simpa using h
            refine ⟨?_, by omega⟩
            have := List.getElem?_eq_some.mp hidx
            obtain ⟨hb, rfl⟩ := this
            exact List.getElem_mem hb
    · simp at h

theorem bsearchLoop_some {α : Type} (cmp : α → Int) (arr : List α)
    (l u : Nat) (x : α) (h : bsearchLoop cmp arr l u = some x) :
    x ∈ arr ∧ cmp x = 0 :=
  bsearchGo_some cmp arr _ _ _ _ h

theorem toInt32_eq_zero {x : Int} (hl : -(2 ^ 32) < x) (hu : x < 2 ^ 32)
    (h : toInt32 x = 0) : x = 0 := by
  unfold toInt32 at h
  omega

theorem table_values_lt_2_32 :
    ∀ e ∈ cpar_color_name_table, e.2 < 2 ^ 32 := by decide

theorem cpar_hex_byte_to_int_error {s : List Char} {e : Status}
    (h : cpar_hex_byte_to_int s = .error e) :
    e = .numberRange ∨ e = .invalidNumber := by
  simp only [cpar_hex_byte_to_int] at h
  repeat' split at h
  all_goals first
    | (injection h with h2; first | exact Or.inl h2.symm | exact Or.inr h2.symm)
    | simp at h

theorem cpar_parse_component_rgb_error {s : List Char} {e : Status}
    (h : cpar_parse_component_rgb s = .error e) :
    e = .invalidNumber ∨ e = .numberRange := by
  simp only [cpar_parse_component_rgb] at h
  repeat' split at h
  all_goals first
    | (injection h with h2; first | exact Or.inl h2.symm | exact Or.inr h2.symm)
    | simp at h

theorem cpar_parse_component_a_error {s : List Char} {e : Status}
    (h : cpar_parse_component_a s = .error e) :
    e = .invalidNumber ∨ e = .numberRange := by
  simp only [cpar_parse_component_a] at h
  repeat' split at h
  all_goals first
    | (injection h with h2; first | exact Or.inl h2.symm | exact Or.inr h2.symm)
    | simp at h

theorem cpar_parse_component_a_ok {s : List Char} {v : Nat}
    (h : cpar_parse_component_a s = .ok v) : v = 0 := by
  simp only [cpar_parse_component_a] at h
  split at h
  · exact absurd h (by simp)
  · split at h
    · exact absurd h (by simp)
    · rename_i hcond
      injection h with h2
      subst h2
      rw [not_or] at hcond
      obtain ⟨-, hgt⟩ := hcond
      simp only [mulPowGtOne] at hgt
      simp only [mulPowDivFloor]
      split at hgt
      · rename_i hex
        rw [if_pos hex]
        simp only [decide_eq_true_eq] at hgt
        exact Nat.div_eq_of_lt (lt_of_le_of_lt (Nat.not_lt.mp hgt) (by norm_num))
      · rename_i hex
        rw [if_neg hex]
        simp only [decide_eq_true_eq] at hgt
        have hp : 0 < 10 ^ (-((strtofParts s).1.2.2)).toNat :=
          pow_pos (by norm_num) _
        have hle := Nat.not_lt.mp hgt
        exact Nat.div_eq_of_lt (by nlinarith)

theorem except_map_error {f : Nat → RGBA} {x : Except Status Nat} {e : Status}
    (h : x.map f = .error e) : x = .error e := by
  cases x <;> simp_all [Except.map]

theorem except_map_ok {f : Nat → RGBA} {x : Except Status Nat} {y : RGBA}
    (h : x.map f = .ok y) : ∃ v, x = .ok v ∧ y = f v := by
  cases x <;> simp_all [Except.map]

theorem ccStep_error {i : Nat} {tok : List Char} {st : RGBA} {e : Status}
    (h : ccStep i tok st = .error e) :
    e = .invalidNumber ∨ e = .numberRange := by
  rcases i with _ | _ | _ | _ | i <;> simp only [ccStep] at h
  · exact cpar_parse_component_rgb_error (except_map_error h)
  · exact cpar_parse_component_rgb_error (except_map_error h)
  · exact cpar_parse_component_rgb_error (except_map_error h)
  · exact cpar_parse_component_a_error (except_map_error h)
  · exact absurd h (by simp)

theorem ccStep3_a_zero {tok : List Char} {st st1 : RGBA}
    (h : ccStep 3 tok st = .ok st1) : st1.a = 0 := by
  simp only [ccStep] at h
  obtain ⟨v, hv, rfl⟩ := except_map_ok h
  simpa using cpar_parse_component_a_ok hv

theorem ccGo_at_n {n : Nat} {toks : List (List Char)} {st st' : RGBA}
    (h : ccGo n toks n st = .ok st') : st' = st := by
  cases toks with
  | nil => simp [ccGo] at h; exact h.symm
  | cons tok rest => simp [ccGo] at h; exact h.symm

theorem ccGo_short {n : Nat} : ∀ (toks : List (List Char)) (i : Nat)
    (st st' : RGBA), i + toks.length < n → ccGo n toks i st ≠ .ok st' := by
  intro toks
  induction toks with
  | nil =>
    intro i st st' hlt h
    simp only [List.length_nil, Nat.add_zero] at hlt
    simp only [ccGo] at h
    rw [if_pos (by omega : i ≠ n)] at h
    exact absurd h (by simp)
  | cons tok rest ih =>
    intro i st st' hlt h
    simp only [List.length_cons] at hlt
    simp only [ccGo] at h
    rw [if_pos (by omega : i < n)] at h
    cases hc : ccStep i tok st with
    | error e => rw [hc] at h; exact absurd h (by simp)
    | ok st1 => rw [hc] at h; exact ih (i + 1) st1 st' (by omega) h

theorem ccGo_error {n : Nat} : ∀ (toks : List (List Char)) (i : Nat)
    (st : RGBA) (e : Status), ccGo n toks i st = .error e →
    e = .synError ∨ e = .invalidNumber ∨ e = .numberRange := by
  intro toks
  induction toks with
  | nil =>
    intro i st e h
    simp only [ccGo] at h
    split at h
    · exact Or.inl (by injection h with h2; exact h2.symm)
    · simp at h
  | cons tok rest ih =>
    intro i st e h
    simp only [ccGo] at h
    split at h
    · cases hc : ccStep i tok st with
      | error e2 =>
        rw [hc] at h
        injection h with h2
        subst h2
        rcases ccStep_error hc with h3 | h3
        · exact Or.inr (Or.inl h3)
        · exact Or.inr (Or.inr h3)
      | ok st1 => rw [hc] at h; exact ih _ _ _ h
    · split at h
      · exact Or.inl (by injection h with h2; exact h2.symm)
      · simp at h

theorem ccGo_alpha : ∀ (toks : List (List Char)) (i : Nat) (st st' : RGBA),
    i ≤ 3 → ccGo 4 toks i st = .ok st' → st'.a = 0 := by
  intro toks
  induction toks with
  | nil =>
    intro i st st' hi h
    simp only [ccGo] at h
    rw [if_pos (by omega : i ≠ 4)] at h
    exact absurd h (by simp)
  | cons tok rest ih =>
    intro i st st' hi h
    simp only [ccGo] at h
    rw [if_pos (by omega : i < 4)] at h
    cases hc : ccStep i tok st with
    | error e => rw [hc] at h; exact absurd h (by simp)
    | ok st1 =>
      rw [hc] at h
      by_cases h3 : i = 3
      · subst h3
        rw [ccGo_at_n h]
        exact ccStep3_a_zero hc
      · exact ih (i + 1) st1 st' (by omega) h

theorem hexAssemble_frame {er eg eb ea : Except Status Nat} {slot : Nat}
    (h : (hexAssemble er eg eb ea slot).1 ≠ .ok) :
    (hexAssemble er eg eb ea slot).2 = slot := by
  cases er <;> cases eg <;> cases eb <;> cases ea <;> simp_all [hexAssemble]

theorem hexAssemble_hexbytes_not_tooBig {s1 s2 s3 s4 : List Char}
    {slot : Nat} :
    (hexAssemble (cpar_hex_byte_to_int s1) (cpar_hex_byte_to_int s2)
      (cpar_hex_byte_to_int s3) (cpar_hex_byte_to_int s4) slot).1 ≠
      .tooBig := by
  intro h
  unfold hexAssemble at h
  repeat' split at h
  all_goals first
    | (simp at h; done)
    | (rename_i e he
       replace h : e = Status.tooBig := h
       rcases cpar_hex_byte_to_int_error he with h2 | h2 <;> simp_all)

theorem parseHexBranch_frame {hex : List Char} {slot : Nat}
    (h : (parseHexBranch hex slot).1 ≠ .ok) :
    (parseHexBranch hex slot).2 = slot := by
  revert h
  unfold parseHexBranch
  split
  · exact fun h => hexAssemble_frame h
  · exact fun h => hexAssemble_frame h
  · exact fun h => hexAssemble_frame h
  · intro _; rfl

theorem parseHexBranch_not_tooBig {hex : List Char} {slot : Nat} :
    (parseHexBranch hex slot).1 ≠ .tooBig := by
  unfold parseHexBranch
  split
  · exact hexAssemble_hexbytes_not_tooBig
  · exact hexAssemble_hexbytes_not_tooBig
  · exact hexAssemble_hexbytes_not_tooBig
  · simp

theorem parseFuncTail_frame {start : List Char} {n slot : Nat}
    (h : (parseFuncTail start n slot).1 ≠ .ok) :
    (parseFuncTail start n slot).2 = slot := by
  revert h
  unfold parseFuncTail
  split
  · intro _; rfl
  · split
    · intro _; rfl
    · intro h; exact absurd rfl h

theorem parseFuncTail_not_tooBig {start : List Char} {n slot : Nat} :
    (parseFuncTail start n slot).1 ≠ .tooBig := by
  unfold parseFuncTail
  split
  · simp
  · split
    · rename_i e he
      intro h
      replace h : e = Status.tooBig := h
      rcases ccGo_error _ 0 _ _ he with h2 | h2 | h2 <;> simp_all
    · simp

theorem cpar_color_from_name_error {s : List Char} {e : Status}
    (h : cpar_color_from_name s = .error e) : e = .noColorName := by
  unfold cpar_color_from_name at h
  split at h
  · injection h with h2; exact h2.symm
  · simp at h

theorem parseDispatch_frame {buffer : List Char} {slot : Nat}
    (h : (parseDispatch buffer slot).1 ≠ .ok) :
    (parseDispatch buffer slot).2 = slot := by
  revert h
  unfold parseDispatch
  split
  · exact fun h => parseHexBranch_frame h
  · split
    · exact fun h => parseFuncTail_frame h
    · split
      · exact fun h => parseFuncTail_frame h
      · split
        · intro _; rfl
        · intro h; exact absurd rfl h

theorem parseDispatch_not_tooBig {buffer : List Char} {slot : Nat} :
    (parseDispatch buffer slot).1 ≠ .tooBig := by
  unfold parseDispatch
  split
  · exact parseHexBranch_not_tooBig
  · split
    · exact parseFuncTail_not_tooBig
    · split
      · exact parseFuncTail_not_tooBig
      · split
        · rename_i e he
          intro h
          replace h : e = Status.tooBig := h
          have := cpar_color_from_name_error he
          simp_all
        · simp

theorem exceptIsOk_exists {x : Except Status Nat} (h : exceptIsOk x = true) :
    ∃ v, x = .ok v := by
  cases x with
  | ok v => exact ⟨v, rfl⟩
  | error e => simp [exceptIsOk] at h

theorem normalize_cons_nospace {c : Char} (h : isSpaceC c = false)
    (t : List Char) : normalize (c :: t) = toLowerC c :: normalize t := by
  simp [normalize, h]

theorem cpar_color_parse_eq_dispatch {cs : List Char} (h1 : cs ≠ [])
    (h2 : cs.length < 64) (slot : Nat) :
    cpar_color_parse (some cs) slot = parseDispatch (normalize cs) slot := by
  simp only [cpar_color_parse]
  rw [if_neg h1, if_neg (by omega)]

theorem parseDispatch_hash (hex : List Char) (slot : Nat) :
    parseDispatch ('#' :: hex) slot = parseHexBranch hex slot := rfl

theorem parseDispatch_rgb (rest : List Char) (slot : Nat) :
    parseDispatch ('r' :: 'g' :: 'b' :: '(' :: rest) slot =
      parseFuncTail rest 3 slot := by
  unfold parseDispatch
  split
  · rename_i hx
    simp at hx
  · simp [List.isPrefixOf]

theorem parseDispatch_rgba (rest : List Char) (slot : Nat) :
    parseDispatch ('r' :: 'g' :: 'b' :: 'a' :: '(' :: rest) slot =
      parseFuncTail rest 4 slot := by
  unfold parseDispatch
  split
  · rename_i hx
    simp at hx
  · simp [List.isPrefixOf]

theorem parse_hex3_eq (a b c : Char) (ha : isSpaceC a = false)
    (hb : isSpaceC b = false) (hc : isSpaceC c = false) (slot : Nat) :
    cpar_color_parse (some ['#', a, b, c]) slot =
      hexAssemble (cpar_hex_byte_to_int [toLowerC a, toLowerC a])
        (cpar_hex_byte_to_int [toLowerC b, toLowerC b])
        (cpar_hex_byte_to_int [toLowerC c, toLowerC c])
        (cpar_hex_byte_to_int ['f', 'f']) slot := by
  rw [cpar_color_parse_eq_dispatch (by simp) (by simp)]
  rw [normalize_cons_nospace (by decide), normalize_cons_nospace ha,
      normalize_cons_nospace hb, normalize_cons_nospace hc]
  rfl

theorem parse_hex6_eq (a b c : Char) (ha : isSpaceC a = false)
    (hb : isSpaceC b = false) (hc : isSpaceC c = false) (slot : Nat) :
    cpar_color_parse (some ['#', a, a, b, b, c, c]) slot =
      hexAssemble (cpar_hex_byte_to_int [toLowerC a, toLowerC a])
        (cpar_hex_byte_to_int [toLowerC b, toLowerC b])
        (cpar_hex_byte_to_int [toLowerC c, toLowerC c])
        (cpar_hex_byte_to_int ['f', 'f']) slot := by
  rw [cpar_color_parse_eq_dispatch (by simp) (by simp)]
  rw [normalize_cons_nospace (by decide), normalize_cons_nospace ha,
      normalize_cons_nospace ha, normalize_cons_nospace hb,
      normalize_cons_nospace hb, normalize_cons_nospace hc,
      normalize_cons_nospace hc]
  rfl

theorem parse_hex8ff_eq (a b c : Char) (ha : isSpaceC a = false)
    (hb : isSpaceC b = false) (hc : isSpaceC c = false) (slot : Nat) :
    cpar_color_parse (some ['#', a, a, b, b, c, c, 'f', 'f']) slot =
      hexAssemble (cpar_hex_byte_to_int [toLowerC a, toLowerC a])
        (cpar_hex_byte_to_int [toLowerC b, toLowerC b])
        (cpar_hex_byte_to_int [toLowerC c, toLowerC c])
        (cpar_hex_byte_to_int ['f', 'f']) slot := by
  rw [cpar_color_parse_eq_dispatch (by simp) (by simp)]
  rw [normalize_cons_nospace (by decide), normalize_cons_nospace ha,
      normalize_cons_nospace ha, normalize_cons_nospace hb,
      normalize_cons_nospace hb, normalize_cons_nospace hc,
      normalize_cons_nospace hc, normalize_cons_nospace (by decide),
      normalize_cons_nospace (by decide)]
  rfl

theorem hexChars_nospace : ∀ c ∈ hexChars, isSpaceC c = false := by decide

theorem hexChars_pair_ok : ∀ c ∈ hexChars,
    exceptIsOk (cpar_hex_byte_to_int [toLowerC c, toLowerC c]) = true := by
  decide

theorem parseFuncTail_ok {start : List Char} {n slot v : Nat}
    (h : parseFuncTail start n slot = (.ok, v)) :
    ∃ st : RGBA,
      cpar_parse_comma_components start.dropLast n ⟨0, 0, 0, 255⟩ = .ok st ∧
      v = cparColorMake st.r st.g st.b st.a := by
  unfold parseFuncTail at h
  split at h
  · simp at h
  · split at h
    · rename_i e he
      have h1 : e = Status.ok := congrArg Prod.fst h
      rcases ccGo_error _ 0 _ _ he with h2 | h2 | h2 <;> simp_all
    · rename_i st hst
      refine ⟨st, hst, ?_⟩
      exact (congrArg Prod.snd h).symm

/-! ## Claims -/

/-- C1 (amended): for every rgba alpha token accepted by the alpha component
parser, the stored alpha byte is the truncation of the parsed fraction
divided by 255 — which is 0 for every accepted fraction in [0,1] — not the
fraction itself; in particular "rgba(0,0,0,0.5)" parses OK and stores alpha
byte 0. -/
theorem alpha_component_stored_byte :
    (∀ (s : List Char) (v : Nat), cpar_parse_component_a s = .ok v → v = 0) ∧
    cpar_color_parse (some ("rgba(0,0,0,0.5)".toList)) 0 = (.ok, 0x00000000) :=
  ⟨fun _ _ h => cpar_parse_component_a_ok h, by decide⟩

/-- C1 witness: the alpha parser accepts "0.25" and stores byte 0. -/
theorem alpha_component_stored_byte_witness :
    cpar_parse_component_a ("0.25".toList) = .ok 0 ∧ (0 : Nat) = 0 :=
  ⟨by decide, alpha_component_stored_byte.1 ("0.25".toList) 0 (by decide)⟩

/-- C1 counterexample: "rgba(0,0,0,1)" parses OK, and the stored alpha byte
is 0, not the parsed fraction 1 that the claim requires. -/
theorem alpha_component_raw_fraction_refuted :
    cpar_color_parse (some ("rgba(0,0,0,1)".toList)) 0 = (.ok, 0x00000000) ∧
    (0x00000000 : Nat) % 256 ≠ 1 := by
  constructor <;> decide

/-- C2 (amended): splitting into fewer comma tokens than expected never
yields OK (e.g. "rgb(1,2)" and "rgba(1,2,3)" fail with the syntax error),
but a higher token count is not rejected: tokens beyond the expected count
are ignored. -/
theorem comma_component_arity :
    (∀ (s : List Char) (n : Nat) (st st' : RGBA),
      (splitTokens s).length < n →
      cpar_parse_comma_components s n st ≠ .ok st') ∧
    cpar_color_parse (some ("rgb(1,2)".toList)) 0 = (.synError, 0) ∧
    cpar_color_parse (some ("rgba(1,2,3)".toList)) 0 = (.synError, 0) := by
  refine ⟨?_, by decide, by decide⟩
  intro s n st st' hlt
  exact ccGo_short (splitTokens s) 0 st st' (by omega)

/-- C2 witness: "1,2" splits into 2 < 3 tokens and the splitter does not
return OK for 3 expected components. -/
theorem comma_component_arity_witness :
    (splitTokens ("1,2".toList)).length < 3 ∧
    cpar_parse_comma_components ("1,2".toList) 3 ⟨0, 0, 0, 255⟩ ≠
      .ok ⟨1, 2, 0, 255⟩ :=
  ⟨by decide, comma_component_arity.1 ("1,2".toList) 3 ⟨0, 0, 0, 255⟩
    ⟨1, 2, 0, 255⟩ (by decide)⟩

/-- C2 counterexample: "rgb(1,2,3,4)" has 4 ≠ 3 comma tokens, yet parses
with status OK (the fourth token is ignored), not SYNTAX_ERROR as the claim
requires. -/
theorem comma_component_extra_token_accepted :
    (splitTokens ("1,2,3,4".toList)).length = 4 ∧
    cpar_color_parse (some ("rgb(1,2,3,4)".toList)) 0 = (.ok, 0x010203ff) := by
  constructor <;> decide

/-- C3 (amended): the value-to-name lookup returns, when non-null, the name
of a table entry whose packed value equals the key, and returns the null
sentinel whenever no entry has that value; but because the table is not
sorted by value, the halving search can also miss values that are present. -/
theorem lookup_color_name_spec :
    (∀ (v : Nat) (name : String), v < 2 ^ 32 →
      cpar_lookup_color_name v = some name →
      ∃ e ∈ cpar_color_name_table, e.1 = name ∧ e.2 = v) ∧
    (∀ v : Nat, v < 2 ^ 32 →
      (∀ e ∈ cpar_color_name_table, e.2 ≠ v) →
      cpar_lookup_color_name v = none) := by
  constructor
  · intro v name hv h
    unfold cpar_lookup_color_name at h
    cases hb : bsearchLoop (fun e => toInt32 ((v : Int) - (e.2 : Int)))
        cpar_color_name_table 0 cpar_color_name_table.length with
    | none => rw [hb] at h; simp at h
    | some e =>
      rw [hb] at h
      simp only [Option.map] at h
      injection h with h1
      obtain ⟨hmem, hzero⟩ := bsearchLoop_some _ _ _ _ _ hb
      have hlt := table_values_lt_2_32 e hmem
      have h0 : ((v : Int) - (e.2 : Int)) = 0 :=
        toInt32_eq_zero (by omega) (by omega) hzero
      exact ⟨e, hmem, h1, by omega⟩
  · intro v hv hno
    unfold cpar_lookup_color_name
    cases hb : bsearchLoop (fun e => toInt32 ((v : Int) - (e.2 : Int)))
        cpar_color_name_table 0 cpar_color_name_table.length with
    | none => rfl
    | some e =>
      obtain ⟨hmem, hzero⟩ := bsearchLoop_some _ _ _ _ _ hb
      have hlt := table_values_lt_2_32 e hmem
      have h0 : ((v : Int) - (e.2 : Int)) = 0 :=
        toInt32_eq_zero (by omega) (by omega) hzero
      exact absurd (by omega : e.2 = v) (hno e hmem)

/-- C3 witness: 0x12345678 is no table value, and the lookup returns the
null sentinel for it. -/
theorem lookup_color_name_spec_witness :
    ((0x12345678 : Nat) < 2 ^ 32 ∧
      ∀ e ∈ cpar_color_name_table, e.2 ≠ 0x12345678) ∧
    cpar_lookup_color_name 0x12345678 = none :=
  ⟨⟨by decide, by decide⟩,
   lookup_color_name_spec.2 0x12345678 (by decide) (by decide)⟩

/-- C3 counterexample: 0xff0000ff (red) is a table value, yet the lookup
returns the null sentinel for it, because the value comparator runs the
halving search over a table sorted by name, not by value. -/
theorem lookup_color_name_misses_red :
    (∃ e ∈ cpar_color_name_table, e.2 = 0xff0000ff) ∧
    cpar_lookup_color_name 0xff0000ff = none := by
  constructor <;> decide

/-- C4 (amended): a successful name lookup always returns the packed value
of a table entry whose name matches case-insensitively, and a string with no
case-insensitive match in the table always fails with NO_COLOR_NAME; "Red",
"RED" and "red" all resolve to 0xff0000ff and "NOT_A_REAL_COLOR" fails.
However, the table is not fully sorted by name, so the halving search can
also miss names that are present (see the counterexample). -/
theorem color_from_name_spec :
    (∀ (s : List Char) (v : Nat), cpar_color_from_name s = .ok v →
      ∃ e ∈ cpar_color_name_table,
        cpar_strcasecmp s e.1.toList = 0 ∧ e.2 = v) ∧
    (∀ s : List Char,
      (∀ e ∈ cpar_color_name_table, cpar_strcasecmp s e.1.toList ≠ 0) →
      cpar_color_from_name s = .error .noColorName) ∧
    cpar_color_parse (some ("Red".toList)) 0 = (.ok, 0xff0000ff) ∧
    cpar_color_parse (some ("RED".toList)) 0 = (.ok, 0xff0000ff) ∧
    cpar_color_parse (some ("red".toList)) 0 = (.ok, 0xff0000ff) ∧
    cpar_color_parse (some ("NOT_A_REAL_COLOR".toList)) 0 =
      (.noColorName, 0) := by
  refine ⟨?_, ?_, by decide, by decide, by decide, by decide⟩
  · intro s v h
    unfold cpar_color_from_name at h
    cases hb : bsearchLoop (fun e => cpar_strcasecmp s e.1.toList)
        cpar_color_name_table 0 cpar_color_name_table.length with
    | none => rw [hb] at h; simp at h
    | some e =>
      rw [hb] at h
      injection h with h1
      obtain ⟨hmem, hzero⟩ := bsearchLoop_some _ _ _ _ _ hb
      exact ⟨e, hmem, hzero, h1⟩
  · intro s hno
    unfold cpar_color_from_name
    cases hb : bsearchLoop (fun e => cpar_strcasecmp s e.1.toList)
        cpar_color_name_table 0 cpar_color_name_table.length with
    | none => rfl
    | some e =>
      obtain ⟨hmem, hzero⟩ := bsearchLoop_some _ _ _ _ _ hb
      exact absurd hzero (hno e hmem)

/-- C4 witness: "zzz" matches no table name, and the name lookup reports
NO_COLOR_NAME for it. -/
theorem color_from_name_spec_witness :
    (∀ e ∈ cpar_color_name_table,
      cpar_strcasecmp ("zzz".toList) e.1.toList ≠ 0) ∧
    cpar_color_from_name ("zzz".toList) = .error .noColorName :=
  ⟨by decide, color_from_name_spec.2.1 ("zzz".toList) (by decide)⟩

/-- C4 counterexample: "aqua" is in the table with value 0x00ffffff + alpha,
yet parsing "aqua" fails with NO_COLOR_NAME: the 16 basic colours at the
head of the table are not in sorted position, and the halving search walks
past every "aqua" entry. -/
theorem parse_misses_aqua :
    ("aqua", cparColorMake 0 255 255 255) ∈ cpar_color_name_table ∧
    cpar_color_parse (some ("aqua".toList)) 0 = (.noColorName, 0) := by
  constructor <;> decide

/-- C5 (code bug at status 7): the description table has seven entries at
indices 0..6 and the guard rejects only casts above 7, so status 7 reaches
the out-of-bounds read instead of returning the null sentinel; every other
invalid int-ranged status yields null, and the seven defined codes yield
their description strings. -/
theorem strerror_spec :
    cpar_strerror 7 = .outOfBounds ∧
    (∀ s : Int, -(2 ^ 31) ≤ s → s < 2 ^ 31 → s < 0 ∨ 7 < s →
      cpar_strerror s = .null) ∧
    cpar_strerror 0 = .str "success" ∧
    cpar_strerror 1 = .str "invalid parameter" ∧
    cpar_strerror 2 = .str "color string too big" ∧
    cpar_strerror 3 = .str "numeric component failed to parse" ∧
    cpar_strerror 4 = .str "numeric component out-of-range" ∧
    cpar_strerror 5 = .str "syntax error" ∧
    cpar_strerror 6 = .str "no matching color name" := by
  refine ⟨by decide, ?_, by decide, by decide, by decide, by decide,
    by decide, by decide, by decide⟩
  intro s hlo hhi h
  simp only [cpar_strerror]
  rw [if_pos (by omega)]

/-- C5 witness: the negative status -5 is rejected with the null sentinel. -/
theorem strerror_spec_witness :
    ((-(2 ^ 31) : Int) ≤ -5 ∧ (-5 : Int) < 2 ^ 31 ∧
      ((-5 : Int) < 0 ∨ 7 < (-5 : Int))) ∧
    cpar_strerror (-5) = .null :=
  ⟨⟨by norm_num, by norm_num, Or.inl (by norm_num)⟩,
   strerror_spec.2.1 (-5) (by norm_num) (by norm_num) (Or.inl (by norm_num))⟩

/-- C6 (amended): a percent component whose digits parse to val in [0,255]
is rescaled to the truncation ⌊val · 255 / 100⌋, not the rounding; in
particular "rgb(50%,100%,0%)" parses to 0x7fff00ff with red 127. -/
theorem percent_component_truncates :
    (∀ (tok : List Char) (val : Int),
      strtol10 tok = (val, false, []) → 0 ≤ val → val ≤ 255 →
      cpar_parse_component_rgb (tok ++ ['%']) = .ok (val.toNat * 255 / 100)) ∧
    cpar_color_parse (some ("rgb(50%,100%,0%)".toList)) 0 =
      (.ok, 0x7fff00ff) := by
  refine ⟨?_, by decide⟩
  intro tok val h h0 h255
  simp only [cpar_parse_component_rgb, List.getLast?_concat,
    List.dropLast_concat]
  norm_num [h]
  exact fun hc => absurd hc (by omega)

/-- C6 witness: the token "50%" rescales to ⌊50 · 255 / 100⌋ = 127. -/
theorem percent_component_truncates_witness :
    (strtol10 ("50".toList) = (50, false, []) ∧ (0 : Int) ≤ 50 ∧
      (50 : Int) ≤ 255) ∧
    cpar_parse_component_rgb ("50".toList ++ ['%']) =
      .ok ((50 : Int).toNat * 255 / 100) :=
  ⟨⟨by decide, by norm_num, by norm_num⟩,
   percent_component_truncates.1 ("50".toList) 50 (by decide) (by norm_num)
     (by norm_num)⟩

/-- C6 counterexample: the red channel of "rgb(50%,100%,0%)" is the
truncation 127, while the claimed formula round(50 / 100 · 255) =
round(127.5) is 128. -/
theorem percent_component_not_rounded :
    cpar_color_parse (some ("rgb(50%,100%,0%)".toList)) 0 =
      (.ok, 0x7fff00ff) ∧
    (0x7fff00ff : Nat) / 2 ^ 24 % 256 = 127 ∧
    round ((50 : ℚ) / 100 * 255) = 128 ∧ (127 : Int) ≠ 128 := by
  refine ⟨by decide, by norm_num, by norm_num [round_eq], by norm_num⟩

/-- C7: the output slot is written only on the OK status: on every failure
status, for every input (including the NULL pointer), the slot keeps its
previous value. -/
theorem output_slot_untouched_on_failure (color_str : Option (List Char))
    (slot : Nat) (h : (cpar_color_parse color_str slot).1 ≠ .ok) :
    (cpar_color_parse color_str slot).2 = slot := by
  cases color_str with
  | none => rfl
  | some cs =>
    revert h
    simp only [cpar_color_parse]
    split
    · intro _; rfl
    · split
      · intro _; rfl
      · exact fun h => parseDispatch_frame h

/-- C7 witness: "zz" fails with NO_COLOR_NAME and the slot keeps 42. -/
theorem output_slot_untouched_on_failure_witness :
    (cpar_color_parse (some ("zz".toList)) 42).1 ≠ .ok ∧
    (cpar_color_parse (some ("zz".toList)) 42).2 = 42 :=
  ⟨by decide, output_slot_untouched_on_failure (some ("zz".toList)) 42
    (by decide)⟩

/-- C8: the parse returns TOO_BIG exactly when the raw input length, before
whitespace removal, is at least the 64-byte buffer capacity; no shorter
input ever yields TOO_BIG and no other branch produces it. -/
theorem too_big_iff_length_ge_64 (cs : List Char) (slot : Nat) :
    (cpar_color_parse (some cs) slot).1 = .tooBig ↔ 64 ≤ cs.length := by
  simp only [cpar_color_parse]
  split
  · rename_i hnil
    subst hnil
    simp
  · split
    · rename_i hlen
      simp [hlen]
    · rename_i hnil hlen
      constructor
      · intro h
        exact absurd h parseDispatch_not_tooBig
      · intro h
        exact absurd h (by omega)

/-- C9: for all hexadecimal digits d1, d2, d3 in either letter case, the
inputs #d1d2d3, #d1d1d2d2d3d3 and #d1d1d2d2d3d3ff parse with status OK to
the same packed value: the short form duplicates each digit and the 3- and
6-digit forms force alpha to ff. -/
theorem hex_forms_equivalent (d1 d2 d3 : Char) (h1 : d1 ∈ hexChars)
    (h2 : d2 ∈ hexChars) (h3 : d3 ∈ hexChars) :
    (cpar_color_parse (some ['#', d1, d2, d3]) 0).1 = .ok ∧
    cpar_color_parse (some ['#', d1, d1, d2, d2, d3, d3]) 0 =
      cpar_color_parse (some ['#', d1, d2, d3]) 0 ∧
    cpar_color_parse (some ['#', d1, d1, d2, d2, d3, d3, 'f', 'f']) 0 =
      cpar_color_parse (some ['#', d1, d2, d3]) 0 := by
  have ha := hexChars_nospace d1 h1
  have hb := hexChars_nospace d2 h2
  have hc := hexChars_nospace d3 h3
  rw [parse_hex3_eq d1 d2 d3 ha hb hc, parse_hex6_eq d1 d2 d3 ha hb hc,
    parse_hex8ff_eq d1 d2 d3 ha hb hc]
  refine ⟨?_, rfl, rfl⟩
  obtain ⟨v1, hv1⟩ := exceptIsOk_exists (hexChars_pair_ok d1 h1)
  obtain ⟨v2, hv2⟩ := exceptIsOk_exists (hexChars_pair_ok d2 h2)
  obtain ⟨v3, hv3⟩ := exceptIsOk_exists (hexChars_pair_ok d3 h3)
  rw [hv1, hv2, hv3, show cpar_hex_byte_to_int ['f', 'f'] = .ok 255 by decide]
  rfl

/-- C9 witness: the three forms agree at the digits F, f, 0. -/
theorem hex_forms_equivalent_witness :
    ('F' ∈ hexChars ∧ 'f' ∈ hexChars ∧ '0' ∈ hexChars) ∧
    ((cpar_color_parse (some ['#', 'F', 'f', '0']) 0).1 = .ok ∧
      cpar_color_parse (some ['#', 'F', 'F', 'f', 'f', '0', '0']) 0 =
        cpar_color_parse (some ['#', 'F', 'f', '0']) 0 ∧
      cpar_color_parse (some ['#', 'F', 'F', 'f', 'f', '0', '0', 'f', 'f'])
          0 =
        cpar_color_parse (some ['#', 'F', 'f', '0']) 0) :=
  ⟨⟨by decide, by decide, by decide⟩,
   hex_forms_equivalent 'F' 'f' '0' (by decide) (by decide) (by decide)⟩

/-- C10 (implicit claim, confirmed): every input whose normalized buffer
starts with the rgba( prefix and parses with status OK yields a packed value
whose alpha byte is 0, because the alpha component parser stores the
truncation of fraction / 255. -/
theorem rgba_ok_alpha_byte_zero (cs rest : List Char) (slot v : Nat)
    (hn : normalize cs = 'r' :: 'g' :: 'b' :: 'a' :: '(' :: rest)
    (h : cpar_color_parse (some cs) slot = (.ok, v)) : v % 256 = 0 := by
  by_cases hnil : cs = []
  · subst hnil
    simp [normalize] at hn
  by_cases hlen : 64 ≤ cs.length
  · simp only [cpar_color_parse] at h
    rw [if_neg hnil, if_pos hlen] at h
    simp at h
  · rw [cpar_color_parse_eq_dispatch hnil (by omega)] at h
    rw [hn, parseDispatch_rgba] at h
    obtain ⟨st, hst, rfl⟩ := parseFuncTail_ok h
    have ha : st.a = 0 := ccGo_alpha _ 0 _ _ (by omega) hst
    simp only [cparColorMake, ha]
    omega

/-- C10 witness: "rgba(1,2,3,0.5)" parses OK to 0x01020300, whose alpha
byte is 0. -/
theorem rgba_ok_alpha_byte_zero_witness :
    (normalize ("rgba(1,2,3,0.5)".toList) =
        'r' :: 'g' :: 'b' :: 'a' :: '(' :: "1,2,3,0.5)".toList ∧
      cpar_color_parse (some ("rgba(1,2,3,0.5)".toList)) 9 =
        (.ok, 0x01020300)) ∧
    (0x01020300 : Nat) % 256 = 0 :=
  ⟨⟨by decide, by decide⟩,
   rgba_ok_alpha_byte_zero ("rgba(1,2,3,0.5)".toList) ("1,2,3,0.5)".toList)
     9 0x01020300 (by decide) (by decide)⟩
